import Mathlib

/-!
Verification development for the beanaries scraper/ingestion subsystem
(`apps/backend/src`).  Python source functions are shallowly embedded as
executable Lean definitions; machine timestamps are modelled as integral
epoch seconds, database rows as explicit lists, and remote HTTP pagination
as pure functions over the remote data stream.
-/

namespace Beanaries

/-- Character-list version of `List.IsPrefix`, executable by the kernel. -/
def startsWithChars : List Char → List Char → Bool
  | [], _ => true
  | _ :: _, [] => false
  | a :: as, b :: bs => a == b && startsWithChars as bs

/-- Occurrence of `needle` as a contiguous run inside `hay`. -/
def hasSubChars (needle : List Char) : List Char → Bool
  | [] => needle.isEmpty
  | c :: rest => startsWithChars needle (c :: rest) || hasSubChars needle rest

/-- Python's substring test `needle in hay` (on ASCII strings). -/
def pyContains (needle hay : String) : Bool :=
  hasSubChars needle.toList hay.toList

/-- Python's `str.lower` on the ASCII strings this code handles
(`Char.toLower` applied characterwise). -/
def pyLower (s : String) : String :=
  ⟨s.data.map Char.toLower⟩

/-- `Platform` enum from `models.py`. -/
inductive Platform where
  | UBUNTU_LATEST
  | MACOS_LATEST
  | WINDOWS_LATEST
  | UBUNTU_22_04
  | UBUNTU_24_04
  | MACOS_13
  | MACOS_14
  | WINDOWS_2022
deriving DecidableEq, Repr

/-- `DataSource` enum from `models.py`. -/
inductive DataSource where
  | GITHUB_ACTIONS
  | LUCI
  | BUILDKITE
  | KOJI
  | OBS
  | GITLAB_CI
  | LOCAL_BUILD
  | MANUAL
deriving DecidableEq, Repr

/-! ## GitHub Actions scraper (`scrapers/github_actions.py`) -/

/-- `GitHubActionsScraper.parse_platform_from_labels`
(`scrapers/github_actions.py:68-100`): case-insensitive substring matching
over the runner label list, with `" ".join` of the lowered labels used for
the bare version-token checks. -/
def parse_platform_from_labels (labels : List String) : Platform :=
  if labels.isEmpty then Platform.UBUNTU_LATEST
  else
    let labels_lower := labels.map pyLower
    let labels_str := String.intercalate " " labels_lower
    if labels_lower.any (fun label => pyContains "windows" label) then
      if labels_lower.contains "windows-2022" || pyContains "2022" labels_str then
        Platform.WINDOWS_2022
      else
        Platform.WINDOWS_LATEST
    else if labels_lower.any (fun label => pyContains "macos" label || pyContains "mac" label) then
      if labels_lower.contains "macos-13" || labels_lower.contains "macos-13.0" then
        Platform.MACOS_13
      else if labels_lower.contains "macos-14" || labels_lower.contains "macos-14.0" then
        Platform.MACOS_14
      else
        Platform.MACOS_LATEST
    else if labels_lower.any (fun label => pyContains "ubuntu" label) then
      if labels_lower.contains "ubuntu-22.04" || pyContains "22.04" labels_str then
        Platform.UBUNTU_22_04
      else if labels_lower.contains "ubuntu-24.04" || pyContains "24.04" labels_str then
        Platform.UBUNTU_24_04
      else
        Platform.UBUNTU_LATEST
    else
      Platform.UBUNTU_LATEST

/-- A GitHub Actions job as the scraper consumes it.  Timestamps are
modelled as integral epoch seconds (the Python parses ISO-8601 strings
to datetimes and subtracts them). -/
structure Job where
  id : Nat
  name : String
  conclusion : Option String
  labels : List String
  started_at : Option Int
  completed_at : Option Int
deriving DecidableEq, Repr

/-- `GitHubActionsScraper.calculate_duration`
(`scrapers/github_actions.py:102-112`): whole-second difference of the two
timestamps when both are present, otherwise `None`. -/
def calculate_duration (started_at completed_at : Option Int) : Option Int :=
  match started_at, completed_at with
  | some s, some e => some (e - s)
  | _, _ => none

/-- The `exclude_patterns` list of `_filter_build_jobs`
(`scrapers/github_actions.py:117-129`). -/
def exclude_patterns : List String :=
  [ "lint", "linting",
    "format", "formatting", "prettier",
    "eslint", "flake8", "mypy",
    "type-check", "type check",
    "clippy", "rustfmt",
    "spell", "spellcheck",
    "style check", "code style",
    "dead-code", "unused",
    "documentation only", "docs only", "generate docs",
    "code formatting" ]

/-- The name test of `_filter_build_jobs`: any exclusion pattern occurring
as a substring of the lower-cased job name. -/
def matchesExcludePattern (name : String) : Bool :=
  exclude_patterns.any (fun pattern => pyContains pattern (pyLower name))

/-- The per-job predicate of `GitHubActionsScraper._filter_build_jobs`
(`scrapers/github_actions.py:114-157`), condition order as in the source:
name patterns, then the short-successful-job cut, then the missing
timestamp cut. -/
def keepJob (job : Job) : Bool :=
  if matchesExcludePattern job.name then false
  else
    let duration := calculate_duration job.started_at job.completed_at
    if (match duration with
        | some d => decide (d < 15)
        | none => false) && job.conclusion == some "success" then false
    else if job.started_at.isNone || job.completed_at.isNone then false
    else true

/-- `GitHubActionsScraper._filter_build_jobs`: keep exactly the jobs that
survive `keepJob`, in order. -/
def filterBuildJobs (jobs : List Job) : List Job :=
  jobs.filter keepJob

/-! ## Success inference per connector -/

/-- `LUCIScraper.is_build_successful` (`scrapers/luci.py:144-147`). -/
def luci_is_build_successful (status : String) : Bool :=
  status == "SUCCESS"

/-- `BuildkiteScraper.is_build_successful` (`scrapers/buildkite.py:286-289`). -/
def buildkite_is_build_successful (state : String) : Bool :=
  state == "passed"

/-- `OpenSuseObsScraper._is_build_successful` (`scrapers/opensuse_obs.py:55-68`). -/
def obs_is_build_successful (status : String) : Bool :=
  pyLower status == "succeeded"

/-- `FedoraKojiScraper._is_build_successful` (`scrapers/fedora_koji.py:94-104`). -/
def koji_is_build_successful (state : Int) : Bool :=
  state == 1

/-- Buildbucket status vocabulary, as documented at `scrapers/luci.py:146`. -/
def luciStatusVocabulary : List String :=
  ["SUCCESS", "FAILURE", "INFRA_FAILURE", "CANCELED"]

/-- Buildkite state vocabulary, as documented at `scrapers/buildkite.py:288`. -/
def buildkiteStateVocabulary : List String :=
  ["passed", "failed", "blocked", "canceled", "canceling", "skipped",
   "not_run", "scheduled", "running"]

/-- OBS build status vocabulary, as documented at
`scrapers/opensuse_obs.py:58-67`. -/
def obsStatusVocabulary : List String :=
  ["succeeded", "failed", "building", "scheduled", "dispatching",
   "blocked", "excluded", "disabled"]

/-- Koji build state vocabulary, as documented at
`scrapers/fedora_koji.py:97-102`. -/
def kojiStateVocabulary : List Int :=
  [0, 1, 2, 3, 4]

/-! ## LUCI (Buildbucket) scraper (`scrapers/luci.py`) -/

/-- Python falsiness of a string (`not s`). -/
def strFalsy (s : String) : Bool :=
  s.data.isEmpty

/-- A Buildbucket build as returned by `SearchBuilds` and consumed by
`LUCIScraper.scrape_config`.  `commit_sha`/`commit_message` stand for
`input.gitilesCommit.id`/`.message` (the nested-dict access performed by
`LUCIScraper.extract_commit_info`, `scrapers/luci.py:149-158`); timestamps
are modelled as integral epoch seconds. -/
structure LuciBuild where
  id : Option String
  status : String
  startTime : Option Int
  endTime : Option Int
  commit_sha : Option String
  commit_message : Option String
deriving DecidableEq, Repr

/-- `LUCIScraper.calculate_duration_from_times` (`scrapers/luci.py:127-142`):
same whole-second difference as the GitHub Actions variant. -/
def calculate_duration_from_times (start_time end_time : Option Int) : Option Int :=
  calculate_duration start_time end_time

/-- Model of the remote Buildbucket service behind
`POST /prpc/buildbucket.v2.Builds/SearchBuilds`: the full build stream
(newest first) served page by page; the opaque `nextPageToken` is modelled
as the offset of the next unserved item, absent once the stream is
exhausted. -/
def luciServe (stream : List LuciBuild) (offset page_size : Nat) :
    List LuciBuild × Option Nat :=
  let page := (stream.drop offset).take page_size
  let next := offset + page.length
  (page, if next < stream.length then some next else none)

/-- The pagination loop of `LUCIScraper.search_builds`
(`scrapers/luci.py:33-112`): keep requesting pages until the limit is
reached, a page comes back empty, or the response carries no
`nextPageToken`.  Returns the accumulated builds and the number of page
requests issued.  The loop is marker-blind: it takes no stop marker.
`fuel` bounds the recursion; `search_builds` supplies enough fuel that it
is never exhausted. -/
def search_builds_go (stream : List LuciBuild) (limit : Option Nat) (page_size : Nat) :
    Nat → List LuciBuild → Nat → Nat → List LuciBuild × Nat
  | 0, all_builds, _, requests => (all_builds, requests)
  | Nat.succ fuel, all_builds, offset, requests =>
    let continue_loop :=
      match limit with
      | none => true
      | some l => decide (all_builds.length < l)
    if continue_loop then
      let current_page_size :=
        match limit with
        | none => min page_size 1000
        | some l => min (min page_size (l - all_builds.length)) 1000
      let served := luciServe stream offset current_page_size
      let all_builds := all_builds ++ served.1
      let requests := requests + 1
      match served.2 with
      | none => (all_builds, requests)
      | some next =>
        if served.1.isEmpty then (all_builds, requests)
        else search_builds_go stream limit page_size fuel all_builds next requests
    else
      (all_builds, requests)

/-- `LUCIScraper.search_builds` over the modelled remote stream: fetched
builds plus the count of `SearchBuilds` requests issued. -/
def search_builds (stream : List LuciBuild) (limit : Option Nat) (page_size : Nat) :
    List LuciBuild × Nat :=
  search_builds_go stream limit page_size (stream.length + 1) [] 0 0

/-- The canonical record staged by `LUCIScraper.scrape_config` for one kept
build (the `Build(...)` constructor call at `scrapers/luci.py:348-379`,
restricted to the fields the claims speak about). -/
structure LuciStaged where
  build_id : String
  commit_sha : String
  commit_message : Option String
  success : Bool
  duration_seconds : Option Int
deriving DecidableEq, Repr

/-- The early-stop test shared in shape by the string-keyed connectors
(e.g. `scrapers/luci.py:303`, `scrapers/opensuse_obs.py:307`,
`scrapers/fedora_koji.py:203`):
`only_new and most_recent_build_id and str(build_id) == most_recent_build_id`
(with `most_recent_build_id` truthy, i.e. a non-empty string). -/
def strMarkerHit : Option String → String → Bool
  | none, _ => false
  | some m, bid => !strFalsy m && bid == m

/-- The per-build processing loop of `LUCIScraper.scrape_config`
(`scrapers/luci.py:296-381`): skip builds without an id, break at the stop
marker, skip already-persisted ids, skip builds without commit info or with
commits outside `valid_commits`, and stage the rest. -/
def luci_process (only_new : Bool) (most_recent_build_id : Option String)
    (existing_ids valid_commits : List String) : List LuciBuild → List LuciStaged
  | [] => []
  | b :: rest =>
    match b.id with
    | none => luci_process only_new most_recent_build_id existing_ids valid_commits rest
    | some bid =>
      if strFalsy bid then
        luci_process only_new most_recent_build_id existing_ids valid_commits rest
      else if only_new && strMarkerHit most_recent_build_id bid then
        []
      else if existing_ids.contains bid then
        luci_process only_new most_recent_build_id existing_ids valid_commits rest
      else
        match b.commit_sha with
        | none => luci_process only_new most_recent_build_id existing_ids valid_commits rest
        | some sha =>
          if strFalsy sha then
            luci_process only_new most_recent_build_id existing_ids valid_commits rest
          else if !valid_commits.contains sha then
            luci_process only_new most_recent_build_id existing_ids valid_commits rest
          else
            { build_id := bid
              commit_sha := sha
              commit_message := b.commit_message
              success := luci_is_build_successful b.status
              duration_seconds := calculate_duration_from_times b.startTime b.endTime } ::
              luci_process only_new most_recent_build_id existing_ids valid_commits rest

/-- `valid_commits` as computed at `scrapers/luci.py:272-285` with
`repo_path = None`: every commit sha appearing in the fetched builds. -/
def luci_valid_commits (builds : List LuciBuild) : List String :=
  builds.filterMap LuciBuild.commit_sha

/-! ## Persisted `builds` rows and the stop-marker queries -/

/-- A persisted row of the `builds` table (`models.py`), restricted to the
columns the stop-marker and dedup queries touch.  `meta_build_id` and
`meta_srcmd5` stand for `scraper_metadata["build_id"]` and
`scraper_metadata["srcmd5"]`. -/
structure BuildRow where
  project_id : Nat
  data_source : DataSource
  commit_sha : Option String
  commit_message : Option String
  success : Bool
  platform : Platform
  workflow_run_id : Option Nat
  started_at : Option Int
  meta_build_id : Option String
  meta_srcmd5 : Option String
deriving DecidableEq, Repr

/-- Row order of `ORDER BY started_at DESC` (PostgreSQL: `NULL` sorts first
under `DESC`): `a` may precede `b`. -/
def startedAtDescBefore (a b : BuildRow) : Bool :=
  match a.started_at, b.started_at with
  | none, _ => true
  | some _, none => false
  | some x, some y => decide (y ≤ x)

/-- The relation sorted by, as a decidable proposition. -/
def startedDescR (a b : BuildRow) : Prop :=
  startedAtDescBefore a b = true

instance : DecidableRel startedDescR :=
  fun a b => instDecidableEqBool (startedAtDescBefore a b) true

/-- `ORDER BY Build.started_at DESC` over a result set. -/
def orderByStartedAtDesc (rows : List BuildRow) : List BuildRow :=
  rows.insertionSort startedDescR

/-- The GitHub Actions stop-marker query
(`scrapers/github_actions.py:190-198`): most recent `workflow_run_id` of
this project with a non-null `workflow_run_id` — no `data_source` filter. -/
def gh_most_recent_run_id (project_id : Nat) (db : List BuildRow) : Option Nat :=
  (orderByStartedAtDesc (db.filter
      (fun r => r.project_id == project_id && r.workflow_run_id.isSome))).head?.bind
    BuildRow.workflow_run_id

/-- The GitLab CI stop-marker query (`scrapers/gitlab_ci.py:222-231`):
filtered on the project, `data_source == GITLAB_CI` and a non-null
`workflow_run_id`. -/
def gitlab_most_recent_pipeline_id (project_id : Nat) (db : List BuildRow) : Option Nat :=
  (orderByStartedAtDesc (db.filter
      (fun r => r.project_id == project_id && r.data_source == DataSource.GITLAB_CI &&
        r.workflow_run_id.isSome))).head?.bind
    BuildRow.workflow_run_id

/-- The LUCI stop-marker query (`scrapers/luci.py:240-248`): filtered on
the project and `data_source == LUCI`, keyed by
`scraper_metadata["build_id"]`. -/
def luci_most_recent_build_id (project_id : Nat) (db : List BuildRow) : Option String :=
  (orderByStartedAtDesc (db.filter
      (fun r => r.project_id == project_id && r.data_source == DataSource.LUCI))).head?.bind
    BuildRow.meta_build_id

/-- The Koji stop-marker query (`scrapers/fedora_koji.py:149-157`):
filtered on the project and `data_source == KOJI`, keyed by
`scraper_metadata["build_id"]`. -/
def koji_most_recent_build_id (project_id : Nat) (db : List BuildRow) : Option String :=
  (orderByStartedAtDesc (db.filter
      (fun r => r.project_id == project_id && r.data_source == DataSource.KOJI))).head?.bind
    BuildRow.meta_build_id

/-- The OBS stop-marker query (`scrapers/opensuse_obs.py:260-268`):
filtered on the project and `data_source == OBS`, keyed by
`scraper_metadata["srcmd5"]`. -/
def obs_most_recent_srcmd5 (project_id : Nat) (db : List BuildRow) : Option String :=
  (orderByStartedAtDesc (db.filter
      (fun r => r.project_id == project_id && r.data_source == DataSource.OBS))).head?.bind
    BuildRow.meta_srcmd5

/-! ## GitHub Actions scrape loop (`scrapers/github_actions.py:159-290`) -/

/-- A workflow run with the jobs returned by
`fetch_workflow_jobs(owner, repo, run_id)` for it. -/
structure GhRun where
  id : Nat
  head_sha : String
  name : String
  head_commit_message : String
  jobs : List Job
deriving DecidableEq, Repr

/-- The record staged by the GitHub Actions loop for one kept job
(the `Build(...)` call at `scrapers/github_actions.py:252-276`, the fields
the claims speak about). -/
structure GhStaged where
  run_id : Nat
  job_id : Nat
  commit_sha : String
  success : Bool
  duration_seconds : Option Int
  platform : Platform
deriving DecidableEq, Repr

/-- The run-id early-stop test at `scrapers/github_actions.py:220`
(`most_recent_run_id` truthy means a non-zero id). -/
def ghMarkerHit : Option Nat → Nat → Bool
  | none, _ => false
  | some m, rid => !(m == 0) && rid == m

/-- Job selection at `scrapers/github_actions.py:227-232`: an exact-name
filter when `job_name` is configured, otherwise `_filter_build_jobs`. -/
def gh_select_jobs (job_name : Option String) (jobs : List Job) : List Job :=
  match job_name with
  | some jn => jobs.filter (fun j => j.name == jn)
  | none => filterBuildJobs jobs

/-- The per-job half of the GitHub Actions loop
(`scrapers/github_actions.py:235-278`).  For EVERY job it first issues an
existing-row query (`db.execute(select(Build).where(...))`,
lines 237-243) — one database query per job — and stages the job only when
that query finds nothing.  Returns the staged records and the number of
duplicate-check queries issued.  `existing` is the set of persisted
`(workflow_run_id, job_id)` pairs of the project. -/
def gh_process_jobs (existing : List (Nat × Nat)) (run : GhRun) :
    List Job → List GhStaged × Nat
  | [] => ([], 0)
  | job :: rest =>
    let r := gh_process_jobs existing run rest
    if existing.contains (run.id, job.id) then
      (r.1, r.2 + 1)
    else
      ({ run_id := run.id
         job_id := job.id
         commit_sha := run.head_sha
         success := job.conclusion == some "success"
         duration_seconds := calculate_duration job.started_at job.completed_at
         platform := parse_platform_from_labels job.labels } :: r.1, r.2 + 1)

/-- The per-run half of the GitHub Actions loop
(`scrapers/github_actions.py:215-278`): break at the stop marker, otherwise
select this run's jobs and process them.  Also returns the total number of
per-job duplicate-check queries issued. -/
def gh_process_runs (only_new : Bool) (most_recent_run_id : Option Nat)
    (job_name : Option String) (existing : List (Nat × Nat)) :
    List GhRun → List GhStaged × Nat
  | [] => ([], 0)
  | run :: rest =>
    if only_new && ghMarkerHit most_recent_run_id run.id then ([], 0)
    else
      let here := gh_process_jobs existing run (gh_select_jobs job_name run.jobs)
      let r := gh_process_runs only_new most_recent_run_id job_name existing rest
      (here.1 ++ r.1, here.2 + r.2)

/-- `GitHubActionsScraper.scrape_config` after the runs fetch: an exception
raised while fetching (runs or any run's jobs) propagates out before
`db.add_all` is reached, so an errored fetch stages nothing; a successful
fetch stages the processed records. -/
def gh_scrape_config (fetched : Except String (List GhRun)) (only_new : Bool)
    (most_recent_run_id : Option Nat) (job_name : Option String)
    (existing : List (Nat × Nat)) : Except String (List GhStaged) :=
  match fetched with
  | Except.error e => Except.error e
  | Except.ok runs =>
    Except.ok (gh_process_runs only_new most_recent_run_id job_name existing runs).1

/-! ## openSUSE OBS scraper (`scrapers/opensuse_obs.py`) -/

/-- One `_history` revision entry as parsed by `_get_build_history`
(`scrapers/opensuse_obs.py:104-139`). -/
structure ObsRevision where
  srcmd5 : Option String
  revision : Option Nat
  version : Option String
  time : Option Int
  comment : Option String
deriving DecidableEq, Repr

/-- The record staged by the OBS loop for one kept revision
(the `Build(...)` call at `scrapers/opensuse_obs.py:371-398`, the fields
the claims speak about). -/
structure ObsStaged where
  srcmd5 : String
  commit_sha : String
  success : Bool
deriving DecidableEq, Repr

/-- The history windowing at `scrapers/opensuse_obs.py:281-284`: reverse to
newest-first, then keep the last `max_builds` entries of the reversed list
(`history[-max_builds:]`, skipped when `max_builds` is falsy). -/
def obs_prepare_history (max_builds : Option Nat) (history : List ObsRevision) :
    List ObsRevision :=
  let h := history.reverse
  match max_builds with
  | none => h
  | some m => if m == 0 then h else h.drop (h.length - m)

/-- The batch existing-keys query at `scrapers/opensuse_obs.py:288-296`:
ONE query loading every `scraper_metadata["srcmd5"]` persisted for this
(project, OBS) pair. -/
def obs_existing_srcmd5s (project_id : Nat) (db : List BuildRow) : List String :=
  (db.filter (fun r => r.project_id == project_id &&
      r.data_source == DataSource.OBS)).filterMap BuildRow.meta_srcmd5

/-- The per-revision processing loop of `OpenSuseObsScraper.scrape_config`
(`scrapers/opensuse_obs.py:301-400`): skip entries without `srcmd5`, break
at the stop marker, skip srcmd5s already in the in-memory existing set (no
per-item database query), fetch the build status (`statusOf`, an HTTP call)
and stage.  The missing-status default is the literal `"unknown"`
(line 325). -/
def obs_process (only_new : Bool) (most_recent_srcmd5 : Option String)
    (existing : List String) (statusOf : String → Option String) :
    List ObsRevision → List ObsStaged
  | [] => []
  | entry :: rest =>
    match entry.srcmd5 with
    | none => obs_process only_new most_recent_srcmd5 existing statusOf rest
    | some srcmd5 =>
      if strFalsy srcmd5 then
        obs_process only_new most_recent_srcmd5 existing statusOf rest
      else if only_new && strMarkerHit most_recent_srcmd5 srcmd5 then
        []
      else if existing.contains srcmd5 then
        obs_process only_new most_recent_srcmd5 existing statusOf rest
      else
        { srcmd5 := srcmd5
          commit_sha := ⟨srcmd5.data.take 40⟩
          success := obs_is_build_successful ((statusOf srcmd5).getD "unknown") } ::
          obs_process only_new most_recent_srcmd5 existing statusOf rest

/-- `OpenSuseObsScraper.scrape_config` duplicate handling
(`scrapers/opensuse_obs.py:257-400`): the stop marker comes from
`obs_most_recent_srcmd5`, the existing keys are loaded by ONE batch query
(`obs_existing_srcmd5s`), and the loop checks membership in memory.  The
second component is the number of duplicate-detection database queries
issued during the pass: the single batch load. -/
def obs_scrape_config (only_new : Bool) (project_id : Nat) (db : List BuildRow)
    (statusOf : String → Option String) (max_builds : Option Nat)
    (history : List ObsRevision) : List ObsStaged × Nat :=
  let most_recent := if only_new then obs_most_recent_srcmd5 project_id db else none
  let existing := obs_existing_srcmd5s project_id db
  (obs_process only_new most_recent existing statusOf
      (obs_prepare_history max_builds history), 1)

/-! ## Fedora Koji scraper (`scrapers/fedora_koji.py`) -/

/-- One `listBuilds` entry as consumed by `FedoraKojiScraper.scrape_config`. -/
structure KojiBuildData where
  build_id : Option Nat
  state : Int
  task_id : Option Nat
  source : Option String
deriving DecidableEq, Repr

/-- The record staged by the Koji loop for one kept build (the `Build(...)`
call at `scrapers/fedora_koji.py:257-281`, the fields the claims speak
about). -/
structure KojiStaged where
  build_id : String
  commit_sha : String
  success : Bool
deriving DecidableEq, Repr

/-- Python's `s.split("#")`. -/
def splitOnHashAux : List Char → List Char → List String
  | [], acc => [⟨acc.reverse⟩]
  | c :: rest, acc =>
    if c == '#' then ⟨acc.reverse⟩ :: splitOnHashAux rest []
    else splitOnHashAux rest (c :: acc)

/-- Python's `s.split("#")` on a string. -/
def pySplitHash (s : String) : List String :=
  splitOnHashAux s.data []

/-- Commit extraction of `FedoraKojiScraper.scrape_config`
(`scrapers/fedora_koji.py:246-259`): when the `source` field is truthy and
contains `"#"`, take the fragment after the last `"#"` truncated to 40
characters (`source.split("#")[-1][:40]`); the persisted value is
`commit_sha or "unknown"`, so an absent, hash-less, or empty extraction
becomes the literal `"unknown"`. -/
def koji_commit_sha (source : Option String) : String :=
  let commit_sha : Option String :=
    match source with
    | none => none
    | some s =>
      if !strFalsy s && pyContains "#" s then
        some ⟨((pySplitHash s).getLastD "").data.take 40⟩
      else
        none
  match commit_sha with
  | none => "unknown"
  | some sha => if strFalsy sha then "unknown" else sha

/-- The per-build processing loop of `FedoraKojiScraper.scrape_config`
(`scrapers/fedora_koji.py:197-283`): skip entries with a falsy `build_id`,
break at the stop marker (string comparison against `str(build_id)`), skip
ids found by the per-build existing query, and stage the rest. -/
def koji_process (only_new : Bool) (most_recent_build_id : Option String)
    (existing : List String) : List KojiBuildData → List KojiStaged
  | [] => []
  | b :: rest =>
    match b.build_id with
    | none => koji_process only_new most_recent_build_id existing rest
    | some bid =>
      if bid == 0 then
        koji_process only_new most_recent_build_id existing rest
      else if only_new && strMarkerHit most_recent_build_id (toString bid) then
        []
      else if existing.contains (toString bid) then
        koji_process only_new most_recent_build_id existing rest
      else
        { build_id := toString bid
          commit_sha := koji_commit_sha b.source
          success := koji_is_build_successful b.state } ::
          koji_process only_new most_recent_build_id existing rest

/-! ## Local builder (`scrapers/local_builder.py`) -/

/-- The attributes the `ProjectConfig` declarative class declares
(`models.py:119-176`, after migration `dabed781b44c` dropped the legacy
per-source columns): mapped columns, relationships, and the
`TimestampMixin` columns.  `build_command`, `build_dir`, `source_url` and
`extract_command` are NOT among them. -/
def projectConfigAttributes : List String :=
  ["id", "project_id", "data_source", "platform", "branch", "is_enabled",
   "check_interval_hours", "last_checked_at", "project",
   "github_actions_config", "luci_config", "buildkite_config",
   "koji_config", "obs_config", "created_at", "updated_at"]

/-- Python attribute access `config.<name>` on a `ProjectConfig` instance:
an attribute the class does not declare raises `AttributeError`. -/
def projectConfigGetattr (name : String) : Except String Unit :=
  if projectConfigAttributes.contains name then Except.ok ()
  else Except.error ("AttributeError: " ++ name)

/-- `LocalBuilder.build_config` (`scrapers/local_builder.py:221-303`).  Its
first statement, `if not config.build_command:` (line 228), accesses the
`build_command` attribute — which the staged `ProjectConfig` no longer
declares, so every invocation raises `AttributeError` there, before the
existence check (lines 254-262) or the insert (lines 286-301) can run.
The remaining body (unreachable on the staged model) follows the source:
the check filters on `(project_id, commit_sha, config.platform,
LOCAL_BUILD)` and the saved record carries
`platform=self.detect_platform()`.  `build_success` is the build command's
exit status. -/
def local_build_config (project_id : Nat) (commit_sha : String)
    (config_platform detected_platform : Platform) (build_success : Bool)
    (db : List BuildRow) : Except String (List BuildRow × Bool) :=
  match projectConfigGetattr "build_command" with
  | Except.error e => Except.error e
  | Except.ok _ =>
    if db.any (fun r => r.project_id == project_id &&
        r.commit_sha == some commit_sha &&
        r.platform == config_platform &&
        r.data_source == DataSource.LOCAL_BUILD) then
      Except.ok (db, false)
    else
      Except.ok (db ++ [{ project_id := project_id
                          data_source := DataSource.LOCAL_BUILD
                          commit_sha := some commit_sha
                          commit_message := none
                          success := build_success
                          platform := detected_platform
                          workflow_run_id := none
                          started_at := none
                          meta_build_id := none
                          meta_srcmd5 := none }], true)

/-- The per-config `try/except` around `builder.build_config` in
`run_local_builds` (`cli.py:48-57`): an exception is printed and the loop
continues, leaving the database as it was. -/
def run_local_build (project_id : Nat) (commit_sha : String)
    (config_platform detected_platform : Platform) (build_success : Bool)
    (db : List BuildRow) : List BuildRow :=
  match local_build_config project_id commit_sha config_platform
      detected_platform build_success db with
  | Except.error _ => db
  | Except.ok r => r.1

/-- The `(workflow_run_id, job_id)` natural keys of a list of staged
GitHub Actions records. -/
def ghStagedPairs (staged : List GhStaged) : List (Nat × Nat) :=
  staged.map (fun s => (s.run_id, s.job_id))

/-! ## Scheduler pass (`scheduler.py`) -/

/-- The per-config loop of `ScraperScheduler.scrape_all_projects`
(`scheduler.py:88-106`): each due configuration's `_scrape_config` call
either commits its staged rows and adds to the pass total, or raises — in
which case the error is logged and the loop CONTINUES with the next
configuration, the failed configuration having staged nothing (every
connector builds its `builds_to_add` list in memory and only reaches
`db.add_all`/`commit` after its fetch loop finishes).  Each list element is
the outcome of one configuration's scrape. -/
def scrape_all_projects {α : Type} (db : List α) :
    List (Except String (List α)) → List α × Nat
  | [] => (db, 0)
  | Except.ok rows :: rest =>
    let r := scrape_all_projects (db ++ rows) rest
    (r.1, rows.length + r.2)
  | Except.error _ :: rest => scrape_all_projects db rest

/-! ## Post-sync enrichment (`scraper_utils.py`) -/

/-- Database state seen by the enrichment steps: the already-committed
build rows of the sync, plus the project's star counter. -/
structure EnrichState where
  builds : List BuildRow
  stars : Option Nat
deriving DecidableEq, Repr

/-- `update_github_stars` (`scraper_utils.py:96-152`).  The HTTP call is
modelled by `response`: `ok (some n)` for HTTP 200 with `stargazers_count`
n, `ok none` for a non-200 response (logged, returns `None`), and `error`
for a raised exception — caught by the `except Exception` handler at
lines 150-152, logged and turned into `None`.  No branch touches the
committed build rows. -/
def update_github_stars (response : Except String (Option Nat)) (st : EnrichState) :
    EnrichState × Option Nat :=
  match response with
  | Except.ok (some n) => ({ st with stars := some n }, some n)
  | Except.ok none => (st, none)
  | Except.error _ => (st, none)

/-- The backfill target query at `scraper_utils.py:193-204`: distinct
commit shas of this project's LUCI rows with a null `commit_message`. -/
def backfill_targets (project_id : Nat) (db : List BuildRow) : List String :=
  ((db.filter (fun r => r.project_id == project_id && r.commit_message == none &&
      r.commit_sha.isSome && r.data_source == DataSource.LUCI)).filterMap
    BuildRow.commit_sha).dedup

/-- The bulk `UPDATE builds SET commit_message = ...` at
`scraper_utils.py:228-246`: every row of the project whose `commit_sha`
appears among the fetched messages gets its `commit_message` set; no other
column changes and no row is added or removed. -/
def backfill_apply (project_id : Nat) (updates : List (String × String))
    (db : List BuildRow) : List BuildRow :=
  db.map (fun r =>
    match updates.find? (fun u => some u.1 == r.commit_sha) with
    | some u =>
      if r.project_id == project_id then { r with commit_message := some u.2 } else r
    | none => r)

/-- `backfill_luci_commit_messages` (`scraper_utils.py:155-265`).  `repo`
models the local mirror: `none` when no repo is configured or present
(lines 173-187, return 0), `some (error _)` when the fetch raises — caught
by the `except Exception` handler at lines 260-265, logged, return 0 — and
`some (ok messages)` for a working `git log --stdin` lookup
(shas the mirror does not know map to `none` and are dropped from
`valid_updates`, line 225). -/
def backfill_luci_commit_messages
    (repo : Option (Except String (String → Option String)))
    (project_id : Nat) (db : List BuildRow) : List BuildRow × Nat :=
  match repo with
  | none => (db, 0)
  | some (Except.error _) => (db, 0)
  | some (Except.ok messages) =>
    let targets := backfill_targets project_id db
    let valid_updates := targets.filterMap
      (fun sha => (messages sha).map (fun m => (sha, m)))
    let updated := (db.filter (fun r => r.project_id == project_id &&
        valid_updates.any (fun u => some u.1 == r.commit_sha))).length
    (backfill_apply project_id valid_updates db, updated)

/-- A build row with its `commit_message` column blanked: the projection
under which the commit-message backfill must leave rows unchanged. -/
def eraseCommitMessage (r : BuildRow) : BuildRow :=
  { r with commit_message := none }

/-! ## Concrete rows and streams used by counterexamples and witnesses -/

/-- Newest-first Buildbucket stream of three builds with ids "0", "1", "2". -/
def c1build (n : Nat) : LuciBuild :=
  ⟨some (toString n), "SUCCESS", some 0, some 10, some (toString (100 + n)), none⟩

/-- Concrete remote stream for the LUCI pagination counterexample. -/
def c1stream : List LuciBuild := [c1build 0, c1build 1, c1build 2]

/-- A successful one-job workflow run for the duplicate-check count
counterexample. -/
def c4job (n : Nat) : Job := ⟨n, "build", some "success", [], some 0, some 100⟩

/-- Two fetched workflow runs, one fresh job each. -/
def c4runs : List GhRun :=
  [⟨11, "sha1", "CI", "msg", [c4job 1]⟩, ⟨12, "sha2", "CI", "msg", [c4job 2]⟩]

/-- A row persisted by the GitLab CI connector (note `data_source`) whose
pipeline id sits in `workflow_run_id`. -/
def gitlabForeignRow : BuildRow :=
  ⟨1, DataSource.GITLAB_CI, some "deadbeef", none, true, Platform.UBUNTU_LATEST,
   some 42, some 0, none, none⟩

/-- A GitLab CI row of project 1 with pipeline id 7, for the witness of the
source-filtered marker queries. -/
def gitlabOwnRow : BuildRow :=
  ⟨1, DataSource.GITLAB_CI, some "cafebabe", none, true, Platform.UBUNTU_LATEST,
   some 7, some 5, none, none⟩

/-- A job whose name matches the lint exclusion pattern. -/
def lintJob : Job := ⟨21, "Run ESLint", some "success", [], some 0, some 600⟩

/-- A successful 5-second job. -/
def shortJob : Job := ⟨22, "build", some "success", [], some 0, some 5⟩

/-- A failed 5-second job with both timestamps present. -/
def failJob : Job := ⟨23, "build", some "failure", [], some 0, some 5⟩

/-! ## Claim theorems -/

/-- C1 counterexample: with the stop marker at position 0 of a newest-first
three-build stream and a page size of 1, `search_builds` still issues 3
page requests — pages 2 and 3 lie strictly beyond the page containing
position 0 — because the fetch loop of `LUCIScraper.search_builds` takes no
stop marker and keeps paginating until the limit or end of data.  The
processing loop then persists nothing (positions `[0, 0)`). -/
theorem luci_fetch_requests_pages_beyond_marker :
    (search_builds c1stream none 1).2 = 3 ∧
    c1stream.head?.bind LuciBuild.id = some "0" ∧
    luci_process true (some "0") [] (luci_valid_commits c1stream) c1stream = [] := by
  decide

/-- C1 (amended): in only-new mode the LUCI processing loop persists only
items strictly before the first occurrence of the stop marker — processing
the fetched stream equals processing its prefix cut at the marker
(positions `[0, k)`); the fetch loop itself is marker-blind and may request
pages beyond the page containing position k. -/
theorem luci_persists_only_items_before_marker (m : String)
    (h : strFalsy m = false) (ex vc : List String) (builds : List LuciBuild) :
    luci_process true (some m) ex vc builds
      = luci_process true none ex vc
          (builds.takeWhile (fun b => !(b.id == some m))) := by
  induction builds with
  | nil => rfl
  | cons b rest ih =>
    cases hid : b.id with
    | none =>
      rw [List.takeWhile_cons]
      simp [luci_process, hid, ih]
    | some bid =>
      by_cases hb : bid = m
      · subst hb
        rw [List.takeWhile_cons]
        simp [luci_process, hid, strMarkerHit, h]
      · rw [List.takeWhile_cons]
        simp [luci_process, hid, strMarkerHit, hb, ih]

/-- C1 witness: the amended statement evaluated on the concrete stream with
marker "0". -/
theorem luci_persists_only_items_before_marker_witness :
    luci_process true (some "0") [] (luci_valid_commits c1stream) c1stream
      = luci_process true none [] (luci_valid_commits c1stream)
          (c1stream.takeWhile (fun b => !(b.id == some "0"))) :=
  luci_persists_only_items_before_marker "0" (by decide) []
    (luci_valid_commits c1stream) c1stream

/-- Every job selected for a run either was already persisted (its
`(run_id, job_id)` pair is in `existing`) or is staged by the per-job
loop. -/
theorem gh_process_jobs_covers (existing : List (Nat × Nat)) (run : GhRun)
    (jobs : List Job) (job : Job) (hj : job ∈ jobs) :
    (run.id, job.id) ∈ existing ∨
    (run.id, job.id) ∈ ghStagedPairs (gh_process_jobs existing run jobs).1 := by
  induction jobs with
  | nil => cases hj
  | cons j rest ih =>
    by_cases hc : (run.id, j.id) ∈ existing
    · have he : (gh_process_jobs existing run (j :: rest)).1
          = (gh_process_jobs existing run rest).1 := by
        simp [gh_process_jobs, hc]
      rcases List.mem_cons.mp hj with h | h
      · subst h; exact Or.inl hc
      · rcases ih h with h1 | h1
        · exact Or.inl h1
        · right; rw [he]; exact h1
    · have he : (gh_process_jobs existing run (j :: rest)).1
          = { run_id := run.id
              job_id := j.id
              commit_sha := run.head_sha
              success := j.conclusion == some "success"
              duration_seconds := calculate_duration j.started_at j.completed_at
              platform := parse_platform_from_labels j.labels } ::
            (gh_process_jobs existing run rest).1 := by
        simp [gh_process_jobs, hc]
      rcases List.mem_cons.mp hj with h | h
      · subst h
        right; rw [he]
        exact List.mem_cons_self _ _
      · rcases ih h with h1 | h1
        · exact Or.inl h1
        · right; rw [he]
          exact List.mem_cons_of_mem _ h1

/-- A run whose selected jobs are all already persisted stages nothing:
every per-job existing query hits. -/
theorem gh_process_jobs_skips_existing (existing : List (Nat × Nat)) (run : GhRun)
    (jobs : List Job) (h : ∀ job ∈ jobs, (run.id, job.id) ∈ existing) :
    (gh_process_jobs existing run jobs).1 = [] := by
  induction jobs with
  | nil => rfl
  | cons j rest ih =>
    have hj := h j (List.mem_cons_self j rest)
    have hrest := ih (fun job hm => h job (List.mem_cons_of_mem j hm))
    simp [gh_process_jobs, hj, hrest]

/-- After a full pass (no early stop), every selected `(run_id, job_id)`
pair of the fetched runs is persisted: it was in `existing` or is among the
staged records' pairs. -/
theorem gh_full_pass_covers (jn : Option String) (ex : List (Nat × Nat))
    (runs : List GhRun) (run : GhRun) (hr : run ∈ runs) (job : Job)
    (hj : job ∈ gh_select_jobs jn run.jobs) :
    (run.id, job.id) ∈ ex ++ ghStagedPairs (gh_process_runs false none jn ex runs).1 := by
  induction runs with
  | nil => cases hr
  | cons r rest ih =>
    rcases List.mem_cons.mp hr with h | h
    · subst h
      rcases gh_process_jobs_covers ex run (gh_select_jobs jn run.jobs) job hj with h1 | h1
      · exact List.mem_append_left _ h1
      · refine List.mem_append_right _ ?_
        simp only [gh_process_runs, Bool.false_and, if_neg Bool.false_ne_true,
          ghStagedPairs, List.map_append]
        exact List.mem_append_left _ h1
    · rcases List.mem_append.mp (ih h) with h1 | h1
      · exact List.mem_append_left _ h1
      · refine List.mem_append_right _ ?_
        simp only [gh_process_runs, Bool.false_and, if_neg Bool.false_ne_true,
          ghStagedPairs, List.map_append]
        exact List.mem_append_right _ h1

/-- A pass over runs all of whose selected pairs are already persisted
stages nothing, whatever its `only_new` mode and marker. -/
theorem gh_process_runs_skips_existing (n : Bool) (mr : Option Nat)
    (jn : Option String) (existing : List (Nat × Nat)) (runs : List GhRun)
    (h : ∀ run ∈ runs, ∀ job ∈ gh_select_jobs jn run.jobs,
      (run.id, job.id) ∈ existing) :
    (gh_process_runs n mr jn existing runs).1 = [] := by
  induction runs with
  | nil => rfl
  | cons r rest ih =>
    have h1 := gh_process_jobs_skips_existing existing r (gh_select_jobs jn r.jobs)
      (h r (List.mem_cons_self r rest))
    have h2 := ih (fun run hm job hj => h run (List.mem_cons_of_mem r hm) job hj)
    by_cases hm : (n && ghMarkerHit mr r.id) = true
    · simp [gh_process_runs, hm]
    · simp [gh_process_runs, hm, h1, h2]

/-- C2: running the same sync twice against unchanged remote data inserts
zero records the second time.  For the local builder this holds because
`build_config`'s first statement accesses `config.build_command`, an
attribute the staged `ProjectConfig` no longer declares: every run raises
`AttributeError` before any insert, the caller's per-config handler keeps
the database unchanged, so no record — in particular no second record for
an already-persisted (project, commit, platform, data source) — is ever
inserted.  For the cited GitHub Actions path the per-job existing check
makes a repeat pass over the same runs, with the first pass's records
persisted, stage nothing. -/
theorem sync_twice_inserts_zero_records :
    (∀ (p : Nat) (sha : String) (cp dp : Platform) (s : Bool) (db : List BuildRow),
      run_local_build p sha cp dp s (run_local_build p sha cp dp s db) = db ∧
      local_build_config p sha cp dp s db
        = Except.error "AttributeError: build_command") ∧
    (∀ (n₂ : Bool) (mr₂ : Option Nat) (jn : Option String)
        (ex : List (Nat × Nat)) (runs : List GhRun),
      (gh_process_runs n₂ mr₂ jn
          (ex ++ ghStagedPairs (gh_process_runs false none jn ex runs).1) runs).1
        = []) := by
  constructor
  · intro p sha cp dp s db
    exact ⟨rfl, rfl⟩
  · intro n₂ mr₂ jn ex runs
    exact gh_process_runs_skips_existing n₂ mr₂ jn _ runs
      (fun run hr job hj => gh_full_pass_covers jn ex runs run hr job hj)

/-- C3: a configuration whose fetch raises contributes zero rows (its
`scrape_config` errors before `db.add_all` is reached), the scheduler loop
continues past the failure, and a sibling configuration in the same pass
commits exactly its own rows: in general the pass appends precisely the
rows of the successful configurations, and in the two-config instance the
final state is the prior rows plus the sibling's records. -/
theorem failed_config_isolated_from_siblings :
    (∀ (db : List GhStaged) (outs : List (Except String (List GhStaged))),
      (scrape_all_projects db outs).1
        = db ++ (outs.filterMap Except.toOption).flatten) ∧
    (∀ (db : List GhStaged) (e : String) (n₁ n₂ : Bool) (mr₁ mr₂ : Option Nat)
        (jn₁ jn₂ : Option String) (ex₁ ex₂ : List (Nat × Nat)) (runs : List GhRun),
      scrape_all_projects db
          [gh_scrape_config (Except.error e) n₁ mr₁ jn₁ ex₁,
           gh_scrape_config (Except.ok runs) n₂ mr₂ jn₂ ex₂]
        = (db ++ (gh_process_runs n₂ mr₂ jn₂ ex₂ runs).1,
           (gh_process_runs n₂ mr₂ jn₂ ex₂ runs).1.length)) := by
  constructor
  · intro db outs
    induction outs generalizing db with
    | nil => simp [scrape_all_projects]
    | cons o rest ih =>
      cases o with
      | ok rows => simp [scrape_all_projects, Except.toOption, ih]
      | error err => simp [scrape_all_projects, Except.toOption, ih]
  · intro db e n₁ n₂ mr₁ mr₂ jn₁ jn₂ ex₁ ex₂ runs
    rfl

/-- C4 counterexample: the GitHub Actions loop issues one duplicate-check
database query per fetched job — two queries for the two fetched jobs of
`c4runs` — instead of loading the existing-key set once and checking
membership in memory. -/
theorem gh_dup_check_query_per_item :
    (gh_process_runs true none none [] c4runs).2 = 2 := by decide

/-- C4 (amended): only the OBS connector batch-checks duplicates — one
query loading the existing `srcmd5` set per pass, membership checked in
memory — while the GitHub Actions loop issues exactly one existing-row
query per processed job. -/
theorem dup_check_per_item_except_obs :
    (∀ (existing : List (Nat × Nat)) (run : GhRun) (jobs : List Job),
      (gh_process_jobs existing run jobs).2 = jobs.length) ∧
    (∀ (only_new : Bool) (project_id : Nat) (db : List BuildRow)
        (statusOf : String → Option String) (max_builds : Option Nat)
        (history : List ObsRevision),
      (obs_scrape_config only_new project_id db statusOf max_builds history).2 = 1) := by
  constructor
  · intro existing run jobs
    induction jobs with
    | nil => rfl
    | cons job rest ih =>
      simp only [gh_process_jobs]
      split <;> simp [ih]
  · intro only_new project_id db statusOf max_builds history
    rfl

/-- C5 counterexample: the GitHub Actions stop-marker query returns the
pipeline id of a row persisted by the GitLab CI connector for the same
project — its filter requires only a non-null `workflow_run_id`, not
`data_source == GITHUB_ACTIONS`. -/
theorem gh_stop_marker_matches_foreign_source :
    gh_most_recent_run_id 1 [gitlabForeignRow] = some 42 ∧
    gitlabForeignRow.data_source ≠ DataSource.GITHUB_ACTIONS := by decide

/-- Any value returned by a marker query of shape
`(ORDER BY started_at DESC LIMIT 1)` over a filtered row set comes from a
row of the underlying table satisfying the filter. -/
theorem mem_of_marker_query {α : Type} {pred : BuildRow → Bool}
    {key : BuildRow → Option α} {db : List BuildRow} {k : α}
    (h : ((orderByStartedAtDesc (db.filter pred)).head?.bind key) = some k) :
    ∃ r ∈ db, pred r = true ∧ key r = some k := by
  rcases Option.bind_eq_some.mp h with ⟨r, hr, hk⟩
  have hmem : r ∈ orderByStartedAtDesc (db.filter pred) := by
    cases hs : orderByStartedAtDesc (db.filter pred) with
    | nil => rw [hs] at hr; simp at hr
    | cons a l =>
      rw [hs] at hr
      simp only [List.head?_cons, Option.some.injEq] at hr
      subst hr
      exact List.mem_cons_self a l
  have hperm := List.perm_insertionSort startedDescR (db.filter pred)
  rcases List.mem_filter.mp (hperm.mem_iff.mp hmem) with ⟨hdb, hp⟩
  exact ⟨r, hdb, hp, hk⟩

/-- C5 (amended): the GitLab CI, LUCI, Koji and OBS stop-marker queries are
restricted to rows of the same project AND the same data source — any key
they return comes from such a row; the GitHub Actions query (see the
counterexample) restricts only to the project and a non-null
`workflow_run_id`. -/
theorem stop_marker_restricted_for_source_filtered_queries :
    (∀ (p : Nat) (db : List BuildRow) (k : Nat),
      gitlab_most_recent_pipeline_id p db = some k →
      ∃ r ∈ db, r.project_id = p ∧ r.data_source = DataSource.GITLAB_CI ∧
        r.workflow_run_id = some k) ∧
    (∀ (p : Nat) (db : List BuildRow) (k : String),
      luci_most_recent_build_id p db = some k →
      ∃ r ∈ db, r.project_id = p ∧ r.data_source = DataSource.LUCI ∧
        r.meta_build_id = some k) ∧
    (∀ (p : Nat) (db : List BuildRow) (k : String),
      koji_most_recent_build_id p db = some k →
      ∃ r ∈ db, r.project_id = p ∧ r.data_source = DataSource.KOJI ∧
        r.meta_build_id = some k) ∧
    (∀ (p : Nat) (db : List BuildRow) (k : String),
      obs_most_recent_srcmd5 p db = some k →
      ∃ r ∈ db, r.project_id = p ∧ r.data_source = DataSource.OBS ∧
        r.meta_srcmd5 = some k) := by
  refine ⟨?_, ?_, ?_, ?_⟩ <;> intro p db k h <;>
    rcases mem_of_marker_query h with ⟨r, hdb, hp, hk⟩ <;>
    simp only [Bool.and_eq_true, beq_iff_eq] at hp
  · exact ⟨r, hdb, hp.1.1, hp.1.2, hk⟩
  · exact ⟨r, hdb, hp.1, hp.2, hk⟩
  · exact ⟨r, hdb, hp.1, hp.2, hk⟩
  · exact ⟨r, hdb, hp.1, hp.2, hk⟩

/-- C5 witness: the GitLab CI conjunct evaluated on a concrete one-row
table. -/
theorem stop_marker_restricted_witness :
    ∃ r ∈ [gitlabOwnRow], r.project_id = 1 ∧
      r.data_source = DataSource.GITLAB_CI ∧ r.workflow_run_id = some 7 :=
  stop_marker_restricted_for_source_filtered_queries.1 1 [gitlabOwnRow] 7 (by decide)

/-- C6: over each connector's documented native status vocabulary, exactly
one value maps to success — "SUCCESS" for Buildbucket/LUCI, "passed" for
Buildkite, "succeeded" for OBS, integer state 1 for Koji — and the
explicitly named other statuses ("canceled", "blocked", "unknown",
"INFRA_FAILURE", Koji state 3) all map to failure. -/
theorem success_inference_exactly_one_value_per_source :
    luciStatusVocabulary.filter luci_is_build_successful = ["SUCCESS"] ∧
    buildkiteStateVocabulary.filter buildkite_is_build_successful = ["passed"] ∧
    obsStatusVocabulary.filter obs_is_build_successful = ["succeeded"] ∧
    kojiStateVocabulary.filter koji_is_build_successful = [1] ∧
    luci_is_build_successful "INFRA_FAILURE" = false ∧
    luci_is_build_successful "CANCELED" = false ∧
    buildkite_is_build_successful "canceled" = false ∧
    buildkite_is_build_successful "blocked" = false ∧
    obs_is_build_successful "blocked" = false ∧
    obs_is_build_successful "unknown" = false ∧
    koji_is_build_successful 3 = false := by decide

/-- C7: platform inference from GitHub Actions runner labels —
"ubuntu-22.04" yields `UBUNTU_22_04`, "windows-latest" yields
`WINDOWS_LATEST`, the empty label list yields the `UBUNTU_LATEST` default,
and within each OS family the explicit version token wins over the generic
"-latest" label even when both are present. -/
theorem platform_inference_from_labels :
    parse_platform_from_labels ["ubuntu-22.04"] = Platform.UBUNTU_22_04 ∧
    parse_platform_from_labels ["windows-latest"] = Platform.WINDOWS_LATEST ∧
    parse_platform_from_labels [] = Platform.UBUNTU_LATEST ∧
    parse_platform_from_labels ["windows-latest", "windows-2022"]
      = Platform.WINDOWS_2022 ∧
    parse_platform_from_labels ["macos-latest", "macos-13"] = Platform.MACOS_13 ∧
    parse_platform_from_labels ["macos-latest", "macos-14"] = Platform.MACOS_14 ∧
    parse_platform_from_labels ["macos-latest"] = Platform.MACOS_LATEST ∧
    parse_platform_from_labels ["ubuntu-latest", "ubuntu-24.04"]
      = Platform.UBUNTU_24_04 ∧
    parse_platform_from_labels ["ubuntu-latest"] = Platform.UBUNTU_LATEST := by decide

/-- C8: the GitHub Actions job filter excludes every job whose name matches
a lint/format/type-check/style pattern, excludes every successful job whose
duration is under 15 seconds, and keeps every failed job with both
timestamps and a non-matching name regardless of its duration — a failed
job is never excluded on account of duration. -/
theorem filter_build_jobs_exclusion_rules (jobs : List Job) (j : Job) :
    (matchesExcludePattern j.name = true → j ∉ filterBuildJobs jobs) ∧
    (j.conclusion = some "success" →
      ∀ d : Int, calculate_duration j.started_at j.completed_at = some d →
        d < 15 → j ∉ filterBuildJobs jobs) ∧
    (j.conclusion ≠ some "success" → j.started_at.isSome = true →
      j.completed_at.isSome = true → matchesExcludePattern j.name = false →
      j ∈ jobs → j ∈ filterBuildJobs jobs) := by
  refine ⟨?_, ?_, ?_⟩
  · intro hm hmem
    have hk := (List.mem_filter.mp hmem).2
    simp [keepJob, hm] at hk
  · intro hc d hd hlt hmem
    have hk := (List.mem_filter.mp hmem).2
    simp [keepJob, hd, hc, hlt] at hk
  · intro hc hs hcmp hm hmem
    refine List.mem_filter.mpr ⟨hmem, ?_⟩
    have h1 : (j.conclusion == some "success") = false := by simp [hc]
    simp [keepJob, hm, h1, Option.isNone_iff_eq_none,
      Option.isSome_iff_ne_none.mp hs, Option.isSome_iff_ne_none.mp hcmp]

/-- C8 witness: the three exclusion rules evaluated on concrete jobs — the
lint-named job and the short successful job are dropped, the short failed
job is kept. -/
theorem filter_build_jobs_exclusion_rules_witness :
    lintJob ∉ filterBuildJobs [lintJob] ∧
    shortJob ∉ filterBuildJobs [shortJob] ∧
    failJob ∈ filterBuildJobs [failJob] :=
  ⟨(filter_build_jobs_exclusion_rules [lintJob] lintJob).1 (by decide),
   (filter_build_jobs_exclusion_rules [shortJob] shortJob).2.1 (by decide) 5
     (by decide) (by decide),
   (filter_build_jobs_exclusion_rules [failJob] failJob).2.2 (by decide) (by decide)
     (by decide) (by decide) (by decide)⟩

/-- C9: both post-sync enrichment steps swallow every failure — a raised
exception yields `(unchanged state, none)` resp. `(unchanged rows, 0)`,
never an error value — and no path of either step removes, adds or alters
a committed build row other than filling `commit_message`. -/
theorem enrichment_failures_swallowed_and_sync_preserved :
    (∀ (e : String) (st : EnrichState),
      update_github_stars (Except.error e) st = (st, none)) ∧
    (∀ (response : Except String (Option Nat)) (st : EnrichState),
      ((update_github_stars response st).1).builds = st.builds) ∧
    (∀ (e : String) (p : Nat) (db : List BuildRow),
      backfill_luci_commit_messages (some (Except.error e)) p db = (db, 0)) ∧
    (∀ (repo : Option (Except String (String → Option String))) (p : Nat)
        (db : List BuildRow),
      ((backfill_luci_commit_messages repo p db).1).map eraseCommitMessage
        = db.map eraseCommitMessage) ∧
    (∀ (repo : Option (Except String (String → Option String))) (p : Nat)
        (db : List BuildRow),
      ((backfill_luci_commit_messages repo p db).1).length = db.length) := by
  refine ⟨fun e st => rfl, ?_, fun e p db => rfl, ?_, ?_⟩
  · intro response st
    match response with
    | Except.ok (some n) => rfl
    | Except.ok none => rfl
    | Except.error e => rfl
  · intro repo p db
    match repo with
    | none => rfl
    | some (Except.error e) => rfl
    | some (Except.ok messages) =>
      simp only [backfill_luci_commit_messages, backfill_apply, List.map_map]
      apply List.map_congr_left
      intro r _
      simp only [Function.comp_apply]
      cases hf : (backfill_targets p db).filterMap
          (fun sha => (messages sha).map (fun m => (sha, m))) |>.find?
          (fun u => some u.1 == r.commit_sha) with
      | none => rfl
      | some u =>
        by_cases hp : (r.project_id == p) = true
        · simp [hp, eraseCommitMessage]
        · simp [hp]
  · intro repo p db
    match repo with
    | none => rfl
    | some (Except.error e) => rfl
    | some (Except.ok messages) =>
      simp [backfill_luci_commit_messages, backfill_apply]

/-- C10: a Koji build whose `source` is absent or carries no "#" fragment
is persisted with the literal commit sha "unknown", and consequently two
distinct Koji builds (different build ids) of the same project both stage
records sharing the commit sha "unknown". -/
theorem koji_missing_source_commit_sha_unknown :
    (∀ source : Option String,
      (source = none ∨ ∀ s, source = some s → pyContains "#" s = false) →
      koji_commit_sha source = "unknown") ∧
    (koji_process true none []
        [⟨some 101, 1, none, none⟩,
         ⟨some 102, 3, none, some "https://example.org/pkg.tar.gz"⟩]
      = [⟨"101", "unknown", true⟩, ⟨"102", "unknown", false⟩]) := by
  constructor
  · intro source h
    cases source with
    | none => rfl
    | some s =>
      rcases h with h | h
      · cases h
      · have hs := h s rfl
        simp [koji_commit_sha, hs]
  · decide

/-- C10 witness: the universal conjunct evaluated at a concrete hash-less
source URL. -/
theorem koji_missing_source_commit_sha_unknown_witness :
    koji_commit_sha (some "https://example.org/pkg.tar.gz") = "unknown" :=
  koji_missing_source_commit_sha_unknown.1 (some "https://example.org/pkg.tar.gz")
    (Or.inr (fun s hs => by cases hs; decide))

end Beanaries
